import Mathlib

/-!
Verification development for the coupled-resonator bandpass filter
synthesis engine (`bandpass_lib`): a shallow embedding of
`calculations.py` and `eseries.py` together with theorems about the
synthesis pipeline and the standard-value (E-series) matcher.

Conventions of the embedding:
* Python floats are modelled as exact real numbers (`ℝ`) where the code
  uses transcendental functions (`math.sin`, `math.sqrt`, `math.pi`),
  and as exact rationals (`ℚ`) where the code only does field
  arithmetic on decimal constants (the E-series matcher and the
  g-value lookup tables).
* A Python `raise ValueError(msg)` is modelled as `Except.error e`
  where `e` is a structured value identifying the message; the source
  message text is quoted in a comment next to each constructor.
* Python list indexing `xs[i]` is modelled by `List.getD i 0`; the
  lemmas carry the length side conditions under which the source
  never raises `IndexError`.
-/

open Real

/-! ## eseries.py -/

/-- E-series normalized mantissa table, `E_SERIES['E12']`. -/
def E12 : List ℚ := [1.0, 1.2, 1.5, 1.8, 2.2, 2.7, 3.3, 3.9, 4.7, 5.6, 6.8, 8.2]

/-- E-series normalized mantissa table, `E_SERIES['E24']`. -/
def E24 : List ℚ :=
  [1.0, 1.1, 1.2, 1.3, 1.5, 1.6, 1.8, 2.0, 2.2, 2.4, 2.7, 3.0,
   3.3, 3.6, 3.9, 4.3, 4.7, 5.1, 5.6, 6.2, 6.8, 7.5, 8.2, 9.1]

/-- E-series normalized mantissa table, `E_SERIES['E96']`. -/
def E96 : List ℚ :=
  [1.00, 1.02, 1.05, 1.07, 1.10, 1.13, 1.15, 1.18, 1.21, 1.24,
   1.27, 1.30, 1.33, 1.37, 1.40, 1.43, 1.47, 1.50, 1.54, 1.58,
   1.62, 1.65, 1.69, 1.74, 1.78, 1.82, 1.87, 1.91, 1.96, 2.00,
   2.05, 2.10, 2.15, 2.21, 2.26, 2.32, 2.37, 2.43, 2.49, 2.55,
   2.61, 2.67, 2.74, 2.80, 2.87, 2.94, 3.01, 3.09, 3.16, 3.24,
   3.32, 3.40, 3.48, 3.57, 3.65, 3.74, 3.83, 3.92, 4.02, 4.12,
   4.22, 4.32, 4.42, 4.53, 4.64, 4.75, 4.87, 4.99, 5.11, 5.23,
   5.36, 5.49, 5.62, 5.76, 5.90, 6.04, 6.19, 6.34, 6.49, 6.65,
   6.81, 6.98, 7.15, 7.32, 7.50, 7.68, 7.87, 8.06, 8.25, 8.45,
   8.66, 8.87, 9.09, 9.31, 9.53, 9.76]

/-- The three known series names (`'E12' | 'E24' | 'E96'`); an unknown
series string makes `find_closest_single` raise, which the claims never
exercise, so the name set is embedded as an enumeration. -/
inductive Series where
  | e12 : Series
  | e24 : Series
  | e96 : Series
deriving DecidableEq

/-- The dictionary `E_SERIES`. -/
def E_SERIES : Series → List ℚ
  | .e12 => E12
  | .e24 => E24
  | .e96 => E96

/-- `_error_pct(actual, target)`: percentage error. -/
def error_pct (actual target : ℚ) : ℚ := |actual - target| / target * 100

/-- `_denormalize(mantissa, decade)`: reconstruct value from mantissa and
decade. -/
def denormalize (mantissa : ℚ) (decade : ℤ) : ℚ := mantissa * 10 ^ decade

/-- One step of the running-minimum loop of `find_closest_single`:
`None`/`inf` initial state is modelled by `Option`; a candidate replaces the
best so far exactly when its error is strictly smaller (which is always the
case against the initial `float('inf')`). -/
def bestStep (target : ℚ) (acc : Option (ℚ × ℚ)) (c : ℚ) : Option (ℚ × ℚ) :=
  match acc with
  | none => some (c, error_pct c target)
  | some (bv, be) =>
      if error_pct c target < be then some (c, error_pct c target) else some (bv, be)

/-- `find_closest_single(target, series)`: the decade is
`math.floor(math.log10(target))`, i.e. `Int.log 10 target` for a positive
rational; the scan covers every mantissa in the home decade and then the two
boundary values `series_values[0]` in decade+1 and `series_values[-1]` in
decade-1.  A non-positive target raises in `_normalize`, modelled as `none`. -/
def find_closest_single (target : ℚ) (series : Series) : Option (ℚ × ℚ) :=
  if target ≤ 0 then none
  else
    let decade := Int.log 10 target
    let series_values := E_SERIES series
    let home := series_values.map (fun sv => denormalize sv decade)
    let boundary := [denormalize (series_values.headD 0) (decade + 1),
                     denormalize (series_values.getLastD 0) (decade - 1)]
    (home ++ boundary).foldl (bestStep target) none

/-! ## calculations.py: g-value tables and prototype providers -/

/-- Structured stand-ins for the `ValueError` messages raised by
`calculations.py`.  Each constructor corresponds to one `raise` site; the
source message text is quoted in the comment. -/
inductive CalcError where
  /-- "Ripple {ripple_db} dB not supported. Use 0.1, 0.5, or 1.0" -/
  | rippleNotSupported : ℚ → CalcError
  /-- "Chebyshev requires odd resonator count (3, 5, 7, 9) for equal
  terminations. Got {n}. Use Butterworth for even counts." -/
  | chebyshevOrderNotTabulated : ℕ → CalcError
  /-- "Bessel g-values only available for 2-9 resonators, got {n}" -/
  | besselOrderOutOfRange : ℕ → CalcError
  /-- "Center frequency must be positive" -/
  | centerFreqNotPositive : CalcError
  /-- "Bandwidth must be positive" -/
  | bandwidthNotPositive : CalcError
  /-- "Bandwidth must be less than center frequency" -/
  | bandwidthNotLessThanCenter : CalcError
  /-- "Impedance must be positive" -/
  | impedanceNotPositive : CalcError
  /-- "Number of resonators must be between 2 and 9" -/
  | badResonatorCount : ℕ → CalcError
  /-- "Bandwidth too wide: tank capacitors {cap_list} would be negative.
  Reduce bandwidth or use fewer resonators." — the carried list holds the
  1-based resonator indices named in `cap_list`. -/
  | bandwidthTooWide : List ℕ → CalcError
deriving DecidableEq

/-- Whether the source message text of an error explains that
equal-termination Chebyshev requires an odd resonator count.  Only the
message of `chebyshevOrderNotTabulated` ("Chebyshev requires odd resonator
count (3, 5, 7, 9) for equal terminations. ...") does; in particular the
message of `rippleNotSupported` ("Ripple {r} dB not supported. Use 0.1,
0.5, or 1.0") does not mention the odd-count requirement. -/
def explainsOddRequirement : CalcError → Bool
  | .chebyshevOrderNotTabulated _ => true
  | _ => false

/-- `BESSEL_G_VALUES`: Bessel normalized g-values for orders 2-9. -/
def BESSEL_G_VALUES (n : ℕ) : Option (List ℚ) :=
  if n = 2 then some [0.5755, 2.1478]
  else if n = 3 then some [0.3374, 0.9705, 2.2034]
  else if n = 4 then some [0.2334, 0.6725, 1.0815, 2.2404]
  else if n = 5 then some [0.1743, 0.5072, 0.8040, 1.1110, 2.2582]
  else if n = 6 then some [0.1365, 0.4002, 0.6392, 0.8538, 1.1126, 2.2645]
  else if n = 7 then some [0.1106, 0.3259, 0.5249, 0.7020, 0.8690, 1.1052, 2.2659]
  else if n = 8 then some [0.0919, 0.2719, 0.4409, 0.5936, 0.7303, 0.8695, 1.0956, 2.2656]
  else if n = 9 then some [0.0780, 0.2313, 0.3770, 0.5108, 0.6306, 0.7407, 0.8639, 1.0863, 2.2649]
  else none

/-- `CHEBYSHEV_G_VALUES[0.1]`: order-keyed table for 0.1 dB ripple. -/
def chebyshevTable01 (n : ℕ) : Option (List ℚ) :=
  if n = 3 then some [1.03159, 1.14740, 1.03159]
  else if n = 5 then some [1.14684, 1.37121, 1.97503, 1.37121, 1.14684]
  else if n = 7 then some [1.18120, 1.42280, 2.09669, 1.57339, 2.09669, 1.42280, 1.18120]
  else if n = 9 then
    some [1.19570, 1.44260, 2.13457, 1.61671, 2.20539, 1.61671, 2.13457, 1.44260, 1.19570]
  else none

/-- `CHEBYSHEV_G_VALUES[0.5]`: order-keyed table for 0.5 dB ripple. -/
def chebyshevTable05 (n : ℕ) : Option (List ℚ) :=
  if n = 3 then some [1.59633, 1.09668, 1.59633]
  else if n = 5 then some [1.70582, 1.22961, 2.54088, 1.22961, 1.70582]
  else if n = 7 then some [1.73734, 1.25822, 2.63834, 1.34431, 2.63834, 1.25822, 1.73734]
  else if n = 9 then
    some [1.75049, 1.26902, 2.66783, 1.36730, 2.72396, 1.36730, 2.66783, 1.26902, 1.75049]
  else none

/-- `CHEBYSHEV_G_VALUES[1.0]`: order-keyed table for 1.0 dB ripple. -/
def chebyshevTable10 (n : ℕ) : Option (List ℚ) :=
  if n = 3 then some [2.02367, 0.99408, 2.02367]
  else if n = 5 then some [2.13496, 1.09108, 3.00101, 1.09108, 2.13496]
  else if n = 7 then some [2.16664, 1.11148, 3.09373, 1.17349, 3.09373, 1.11148, 2.16664]
  else if n = 9 then
    some [2.17980, 1.11915, 3.12152, 1.18964, 3.17472, 1.18964, 3.12152, 1.11915, 2.17980]
  else none

/-- `CHEBYSHEV_G_VALUES`: ripple-keyed outer dictionary (keys 0.1, 0.5,
1.0 dB). -/
def CHEBYSHEV_G_VALUES (ripple_db : ℚ) : Option (ℕ → Option (List ℚ)) :=
  if ripple_db = 0.1 then some chebyshevTable01
  else if ripple_db = 0.5 then some chebyshevTable05
  else if ripple_db = 1.0 then some chebyshevTable10
  else none

/-- `get_chebyshev_g_values(n, ripple_db)`: checks the ripple key first
(raising the "Ripple ... not supported" message), then the order key
(raising the "Chebyshev requires odd resonator count ..." message). -/
def get_chebyshev_g_values (n : ℕ) (ripple_db : ℚ) : Except CalcError (List ℚ) :=
  match CHEBYSHEV_G_VALUES ripple_db with
  | none => .error (.rippleNotSupported ripple_db)
  | some tbl =>
      match tbl n with
      | none => .error (.chebyshevOrderNotTabulated n)
      | some g => .ok g

/-- `get_bessel_g_values(n)`. -/
def get_bessel_g_values (n : ℕ) : Except CalcError (List ℚ) :=
  match BESSEL_G_VALUES n with
  | none => .error (.besselOrderOutOfRange n)
  | some g => .ok g

/-- `calculate_butterworth_g_values(n)`:
`g[i] = 2*sin((2*i - 1)*pi/(2*n))` for `i = 1..n`. -/
noncomputable def calculate_butterworth_g_values (n : ℕ) : List ℝ :=
  (List.range' 1 n).map (fun (i : ℕ) => 2 * Real.sin ((2 * (i : ℝ) - 1) * π / (2 * n)))

/-! ## calculations.py: coupling, resonator and feasibility calculations -/

/-- `calculate_coupling_coefficients(g_values, fbw)`:
`k[i] = fbw / sqrt(g[i] * g[i+1])` for `i in range(len(g) - 1)`. -/
noncomputable def calculate_coupling_coefficients (g_values : List ℝ) (fbw : ℝ) : List ℝ :=
  (List.range (g_values.length - 1)).map
    (fun i => fbw / Real.sqrt (g_values.getD i 0 * g_values.getD (i + 1) 0))

/-- `calculate_external_q(g_values, fbw)`:
`((g0 * g[0]) / fbw, (g[-1] * g_{n+1}) / fbw)` with `g0 = g_{n+1} = 1`. -/
noncomputable def calculate_external_q (g_values : List ℝ) (fbw : ℝ) : ℝ × ℝ :=
  ((1 * g_values.getD 0 0) / fbw, (g_values.getLastD 0 * 1) / fbw)

/-- `calculate_resonator_components(f0, z0)`:
`omega0 = 2*pi*f0; L = z0/omega0; C = 1/(omega0*z0)`. -/
noncomputable def calculate_resonator_components (f0 z0 : ℝ) : ℝ × ℝ :=
  (z0 / (2 * π * f0), 1 / ((2 * π * f0) * z0))

/-- `calculate_coupling_capacitors_top_c(k_values, c_resonant)`:
`[k * c_resonant for k in k_values]`. -/
noncomputable def calculate_coupling_capacitors_top_c
    (k_values : List ℝ) (c_resonant : ℝ) : List ℝ :=
  k_values.map (fun k => k * c_resonant)

/-- `calculate_coupling_capacitors_shunt_c(k_values, c_resonant)`:
`[k * c_resonant for k in k_values]` (same narrowband formula). -/
noncomputable def calculate_coupling_capacitors_shunt_c
    (k_values : List ℝ) (c_resonant : ℝ) : List ℝ :=
  k_values.map (fun k => k * c_resonant)

/-- `'top'` (series) or `'shunt'` (parallel) coupling topology; the two
validated strings are embedded as an enumeration. -/
inductive Coupling where
  | top : Coupling
  | shunt : Coupling
deriving DecidableEq

/-- `'butterworth' | 'chebyshev' | 'bessel'` response type strings. -/
inductive FilterType where
  | butterworth : FilterType
  | chebyshev : FilterType
  | bessel : FilterType
deriving DecidableEq

/-- `calculate_tank_capacitors(n_resonators, c_resonant, c_coupling,
topology)`: `Cp[i] = c_resonant - (c_coupling[i-1] if i > 0) -
(c_coupling[i] if i < n-1)`; the topology argument is accepted and unused,
as in the source. -/
noncomputable def calculate_tank_capacitors (n_resonators : ℕ) (c_resonant : ℝ)
    (c_coupling : List ℝ) (_topology : Coupling) : List ℝ :=
  (List.range n_resonators).map (fun i =>
    c_resonant - ((if 0 < i then c_coupling.getD (i - 1) 0 else 0) +
      (if i < n_resonators - 1 then c_coupling.getD i 0 else 0)))

/-- `calculate_min_q(f0, bw, safety_factor)`: `(f0 / bw) * safety_factor`. -/
noncomputable def calculate_min_q (f0 bw safety_factor : ℝ) : ℝ :=
  (f0 / bw) * safety_factor

/-- Advisory warning strings appended by `calculate_bandpass_filter`,
as structured stand-ins for the two f-string messages. -/
inductive Warning where
  /-- "FBW {fbw*100:.1f}% exceeds 10% limit for Shunt-C; consider Top-C
  topology" -/
  | shuntFbwExceeds10 : Warning
  /-- "FBW {fbw*100:.1f}% exceeds 40%; consider transmission-line design" -/
  | fbwExceeds40 : Warning
deriving DecidableEq

/-- The result dictionary returned by `calculate_bandpass_filter`, with one
field per dictionary key. -/
structure FilterResult where
  f0 : ℝ
  f_low : ℝ
  f_high : ℝ
  bw : ℝ
  fbw : ℝ
  z0 : ℝ
  n_resonators : ℕ
  filter_type : FilterType
  coupling : Coupling
  ripple_db : Option ℚ
  q_safety : ℝ
  g_values : List ℝ
  k_values : List ℝ
  qe_in : ℝ
  qe_out : ℝ
  L_resonant : ℝ
  C_resonant : ℝ
  c_coupling : List ℝ
  c_tank : List ℝ
  q_min : ℝ
  warnings : List Warning

/-- The response-type dispatch inside `calculate_bandpass_filter`
(`if filter_type == 'butterworth': ... elif 'chebyshev': ... else bessel`),
with the rational table entries injected into ℝ. -/
noncomputable def prototype_g_values (filter_type : FilterType) (n : ℕ) (ripple_db : ℚ) :
    Except CalcError (List ℝ) :=
  match filter_type with
  | .butterworth => .ok (calculate_butterworth_g_values n)
  | .chebyshev => (get_chebyshev_g_values n ripple_db).map (List.map (Rat.cast : ℚ → ℝ))
  | .bessel => (get_bessel_g_values n).map (List.map (Rat.cast : ℚ → ℝ))

/-- The body of `calculate_bandpass_filter` after input validation and the
prototype g-value lookup have succeeded, with the looked-up g-values as an
argument: fractional bandwidth, advisory warnings, coupling coefficients,
external Q, resonator components, topology-dispatched coupling capacitors,
compensated tank capacitors, and the negative-tank-capacitor check.  The
Python `enumerate(c_tank)`-based comprehension building `negative_caps` is
modelled by filtering the index range of `c_tank` (the carried data is the
1-based indices named in the message). -/
noncomputable def bandpass_core (f0 bw z0 : ℝ) (n_resonators : ℕ)
    (filter_type : FilterType) (coupling : Coupling) (ripple_db : ℚ) (q_safety : ℝ)
    (g_values : List ℝ) : Except CalcError FilterResult :=
  let fbw := bw / f0
  let warnings : List Warning :=
    (if coupling = .shunt ∧ 0.10 < fbw then [.shuntFbwExceeds10] else []) ++
    (if 0.40 < fbw then [.fbwExceeds40] else [])
  let k_values := calculate_coupling_coefficients g_values fbw
  let qe := calculate_external_q g_values fbw
  let LC := calculate_resonator_components f0 z0
  let c_coupling :=
    match coupling with
    | .top => calculate_coupling_capacitors_top_c k_values LC.2
    | .shunt => calculate_coupling_capacitors_shunt_c k_values LC.2
  let c_tank := calculate_tank_capacitors n_resonators LC.2 c_coupling coupling
  let negative_caps :=
    (List.range c_tank.length).filter (fun i => c_tank.getD i 0 ≤ 0)
  if negative_caps ≠ [] then
    .error (.bandwidthTooWide (negative_caps.map (· + 1)))
  else
    .ok {
          f0 := f0
          f_low := f0 - bw / 2
          f_high := f0 + bw / 2
          bw := bw
          fbw := fbw
          z0 := z0
          n_resonators := n_resonators
          filter_type := filter_type
          coupling := coupling
          ripple_db := if filter_type = .chebyshev then some ripple_db else none
          q_safety := q_safety
          g_values := g_values
          k_values := k_values
          qe_in := qe.1
          qe_out := qe.2
          L_resonant := LC.1
          C_resonant := LC.2
          c_coupling := c_coupling
          c_tank := c_tank
          q_min := calculate_min_q f0 bw q_safety
          warnings := warnings }

/-- `calculate_bandpass_filter(f0, bw, z0, n_resonators, filter_type,
coupling, ripple_db, q_safety)`: the main entry point — input validation,
the response-type dispatch, then the post-validation body
`bandpass_core`. -/
noncomputable def calculate_bandpass_filter (f0 bw z0 : ℝ) (n_resonators : ℕ)
    (filter_type : FilterType) (coupling : Coupling) (ripple_db : ℚ) (q_safety : ℝ) :
    Except CalcError FilterResult :=
  if f0 ≤ 0 then .error .centerFreqNotPositive
  else if bw ≤ 0 then .error .bandwidthNotPositive
  else if f0 ≤ bw then .error .bandwidthNotLessThanCenter
  else if z0 ≤ 0 then .error .impedanceNotPositive
  else if ¬(2 ≤ n_resonators ∧ n_resonators ≤ 9) then .error (.badResonatorCount n_resonators)
  else
    match prototype_g_values filter_type n_resonators ripple_db with
    | .error e => .error e
    | .ok g_values =>
        bandpass_core f0 bw z0 n_resonators filter_type coupling ripple_db q_safety g_values

/-! ## List access helper lemmas -/

lemma getD_map_range (n i : ℕ) (f : ℕ → ℝ) (h : i < n) :
    (((List.range n).map f).getD i 0) = f i := by
  rw [List.getD_eq_getElem?_getD, List.getElem?_map, List.getElem?_range h]; rfl

lemma getD_map_range_one (n i : ℕ) (f : ℕ → ℝ) (h : i < n) :
    (((List.range' 1 n).map f).getD i 0) = f (1 + i) := by
  rw [List.getD_eq_getElem?_getD, List.getElem?_map, List.getElem?_range']
  · simp
  · simpa using h

lemma butterworth_length (n : ℕ) : (calculate_butterworth_g_values n).length = n := by
  simp [calculate_butterworth_g_values]

lemma butterworth_getD (n i : ℕ) (h : i < n) :
    (calculate_butterworth_g_values n).getD i 0 =
      2 * Real.sin ((2 * (i : ℝ) + 1) * π / (2 * n)) := by
  unfold calculate_butterworth_g_values
  rw [getD_map_range_one n i _ h]
  have harg : (2 * ((1:ℕ) + i : ℕ) - 1 : ℝ) * π / (2 * n) =
      (2 * (i : ℝ) + 1) * π / (2 * n) := by
    push_cast
    ring
  rw [harg]

/-! ## C6: resonance round-trip -/

/-- C6: for every f0 > 0 and z0 > 0, the pair (L, C) returned by
`calculate_resonator_components(f0, z0)` satisfies
`1/(2*pi*sqrt(L*C)) = f0` exactly under real arithmetic. -/
theorem C6_resonance_roundtrip (f0 z0 : ℝ) (hf : 0 < f0) (hz : 0 < z0) :
    1 / (2 * π * Real.sqrt ((calculate_resonator_components f0 z0).1 *
      (calculate_resonator_components f0 z0).2)) = f0 := by
  have hπ : (0:ℝ) < π := Real.pi_pos
  have hprod : (calculate_resonator_components f0 z0).1 *
      (calculate_resonator_components f0 z0).2 = (1 / (2 * π * f0)) ^ 2 := by
    unfold calculate_resonator_components
    field_simp
    ring
  rw [hprod, Real.sqrt_sq (by positivity)]
  field_simp

/-- Witness for C6 at f0 = 7 MHz, z0 = 50 Ω. -/
theorem C6_resonance_roundtrip_witness :
    1 / (2 * π * Real.sqrt ((calculate_resonator_components 7000000 50).1 *
      (calculate_resonator_components 7000000 50).2)) = 7000000 :=
  C6_resonance_roundtrip 7000000 50 (by norm_num) (by norm_num)

/-! ## C7: tank capacitor compensation -/

/-- C7: `calculate_tank_capacitors` returns n values; the first resonator
loses only its right coupling capacitor, the last only its left one, and
every interior resonator i (0-based here) loses both neighbours:
`Cp_i = C_resonant - Cs_{i-1} - Cs_i`. -/
theorem C7_tank_capacitors (n : ℕ) (c : ℝ) (cs : List ℝ) (topo : Coupling)
    (hn : 2 ≤ n) (hlen : cs.length = n - 1) :
    (calculate_tank_capacitors n c cs topo).length = n ∧
    (calculate_tank_capacitors n c cs topo).getD 0 0 = c - cs.getD 0 0 ∧
    (calculate_tank_capacitors n c cs topo).getD (n - 1) 0 = c - cs.getD (n - 2) 0 ∧
    (∀ i, 0 < i → i < n - 1 →
      (calculate_tank_capacitors n c cs topo).getD i 0 =
        c - cs.getD (i - 1) 0 - cs.getD i 0) := by
  refine ⟨by simp [calculate_tank_capacitors], ?_, ?_, ?_⟩
  · unfold calculate_tank_capacitors
    rw [getD_map_range n 0 _ (by omega), if_neg (lt_irrefl 0),
      if_pos (by omega : 0 < n - 1)]
    ring
  · unfold calculate_tank_capacitors
    rw [getD_map_range n (n - 1) _ (by omega), if_pos (by omega : 0 < n - 1),
      if_neg (by omega : ¬(n - 1 < n - 1))]
    have h21 : n - 1 - 1 = n - 2 := by omega
    rw [h21]
    ring
  · intro i hi0 hin
    unfold calculate_tank_capacitors
    rw [getD_map_range n i _ (by omega), if_pos hi0, if_pos hin]
    ring

/-- Witness for C7 at n = 3, C_resonant = 10, Cs = [1, 2]. -/
theorem C7_tank_capacitors_witness :
    (calculate_tank_capacitors 3 10 [1, 2] .top).length = 3 ∧
    (calculate_tank_capacitors 3 10 [1, 2] .top).getD 0 0 =
      10 - ([(1:ℝ), 2].getD 0 0) := by
  have h := C7_tank_capacitors 3 10 [1, 2] .top (by norm_num) (by norm_num)
  exact ⟨h.1, h.2.1⟩

/-! ## C8: Butterworth g-value properties -/

lemma butterworth_mem (n : ℕ) (g : ℝ) (hg : g ∈ calculate_butterworth_g_values n) :
    ∃ j : ℕ, 1 ≤ j ∧ j ≤ n ∧ g = 2 * Real.sin ((2 * (j : ℝ) - 1) * π / (2 * n)) := by
  unfold calculate_butterworth_g_values at hg
  rw [List.mem_map] at hg
  obtain ⟨j, hj, rfl⟩ := hg
  rw [List.mem_range'] at hj
  obtain ⟨t, ht, rfl⟩ := hj
  exact ⟨1 + 1 * t, by omega, by omega, rfl⟩

/-- C8: for every order n in [2,9], `calculate_butterworth_g_values(n)`
returns exactly n values, the sequence is symmetric (g_i = g_{n+1-i},
stated 0-based as element (i-1) = element (n-i) for 1 ≤ i ≤ n), and every
value lies in (0, 2]. -/
theorem C8_butterworth_g_spec (n : ℕ) (h2 : 2 ≤ n) (h9 : n ≤ 9) :
    (calculate_butterworth_g_values n).length = n ∧
    (∀ i, 1 ≤ i → i ≤ n →
      (calculate_butterworth_g_values n).getD (i - 1) 0 =
        (calculate_butterworth_g_values n).getD (n - i) 0) ∧
    (∀ g ∈ calculate_butterworth_g_values n, 0 < g ∧ g ≤ 2) := by
  have hn0 : (0:ℝ) < n := by
    have : (2:ℝ) ≤ n := by exact_mod_cast h2
    linarith
  refine ⟨butterworth_length n, ?_, ?_⟩
  · intro i h1 hn
    rw [butterworth_getD n (i - 1) (by omega), butterworth_getD n (n - i) (by omega)]
    have c1 : (2 * ((i - 1 : ℕ) : ℝ) + 1) = 2 * (i : ℝ) - 1 := by
      push_cast [Nat.cast_sub h1]
      ring
    have c2 : (2 * ((n - i : ℕ) : ℝ) + 1) = 2 * (n : ℝ) - 2 * (i : ℝ) + 1 := by
      push_cast [Nat.cast_sub hn]
      ring
    rw [c1, c2]
    have harg : (2 * (n : ℝ) - 2 * (i : ℝ) + 1) * π / (2 * n) =
        π - (2 * (i : ℝ) - 1) * π / (2 * n) := by
      field_simp
      ring
    rw [harg, Real.sin_pi_sub]
  · intro g hg
    obtain ⟨j, hj1, hjn, rfl⟩ := butterworth_mem n g hg
    have hj1R : (1:ℝ) ≤ j := by exact_mod_cast hj1
    have hjnR : (j:ℝ) ≤ n := by exact_mod_cast hjn
    have hθpos : (0:ℝ) < (2 * (j : ℝ) - 1) * π / (2 * n) := by
      apply div_pos (mul_pos (by linarith) Real.pi_pos) (by linarith)
    have hθlt : (2 * (j : ℝ) - 1) * π / (2 * n) < π := by
      rw [div_lt_iff (by linarith)]
      nlinarith [Real.pi_pos]
    constructor
    · have := Real.sin_pos_of_pos_of_lt_pi hθpos hθlt
      linarith
    · nlinarith [Real.sin_le_one ((2 * (j : ℝ) - 1) * π / (2 * n))]

/-- Witness for C8 at n = 5. -/
theorem C8_butterworth_g_spec_witness :
    (calculate_butterworth_g_values 5).length = 5 ∧
    ∀ g ∈ calculate_butterworth_g_values 5, 0 < g ∧ g ≤ 2 := by
  have h := C8_butterworth_g_spec 5 (by norm_num) (by norm_num)
  exact ⟨h.1, h.2.2⟩

/-! ## C4: Chebyshev lookup failure behaviour -/

lemma CHEBYSHEV_G_VALUES_none (r : ℚ) (h : ¬(r = 0.1 ∨ r = 0.5 ∨ r = 1.0)) :
    CHEBYSHEV_G_VALUES r = none := by
  push_neg at h
  unfold CHEBYSHEV_G_VALUES
  rw [if_neg h.1, if_neg h.2.1, if_neg h.2.2]

lemma chebyshevTable01_none (n : ℕ) (h : n ∉ ([3, 5, 7, 9] : List ℕ)) :
    chebyshevTable01 n = none := by
  simp only [List.mem_cons, List.not_mem_nil, or_false, not_or] at h
  unfold chebyshevTable01
  rw [if_neg h.1, if_neg h.2.1, if_neg h.2.2.1, if_neg h.2.2.2]

lemma chebyshevTable05_none (n : ℕ) (h : n ∉ ([3, 5, 7, 9] : List ℕ)) :
    chebyshevTable05 n = none := by
  simp only [List.mem_cons, List.not_mem_nil, or_false, not_or] at h
  unfold chebyshevTable05
  rw [if_neg h.1, if_neg h.2.1, if_neg h.2.2.1, if_neg h.2.2.2]

lemma chebyshevTable10_none (n : ℕ) (h : n ∉ ([3, 5, 7, 9] : List ℕ)) :
    chebyshevTable10 n = none := by
  simp only [List.mem_cons, List.not_mem_nil, or_false, not_or] at h
  unfold chebyshevTable10
  rw [if_neg h.1, if_neg h.2.1, if_neg h.2.2.1, if_neg h.2.2.2]

/-- C4 counterexample: the claim asserts that the error raised on ANY
Chebyshev lookup failure explains the odd-resonator-count requirement; at
order 3 with ripple 0.2 dB the lookup fails on the ripple key and the
raised message ("Ripple 0.2 dB not supported. Use 0.1, 0.5, or 1.0") says
nothing about odd resonator counts. -/
theorem C4_counterexample :
    get_chebyshev_g_values 3 0.2 = .error (.rippleNotSupported 0.2) ∧
    explainsOddRequirement (.rippleNotSupported 0.2) = false := by
  constructor
  · unfold get_chebyshev_g_values
    rw [CHEBYSHEV_G_VALUES_none 0.2 (by norm_num)]
  · rfl

/-- C4 (amended): for every even order the Chebyshev lookup fails
regardless of the ripple value; when the ripple is tabulated
(0.1, 0.5 or 1.0 dB) and the order is not in {3, 5, 7, 9} the error is the
message explaining that equal-termination Chebyshev requires an odd
resonator count; when the ripple is not tabulated the error is instead the
ripple-support message, which does not mention the odd-count rule. -/
theorem C4_chebyshev_failures (n : ℕ) (ripple : ℚ) :
    (n % 2 = 0 → ∃ e, get_chebyshev_g_values n ripple = .error e) ∧
    ((ripple = 0.1 ∨ ripple = 0.5 ∨ ripple = 1.0) → n ∉ ([3, 5, 7, 9] : List ℕ) →
      get_chebyshev_g_values n ripple = .error (.chebyshevOrderNotTabulated n) ∧
      explainsOddRequirement (.chebyshevOrderNotTabulated n) = true) ∧
    (¬(ripple = 0.1 ∨ ripple = 0.5 ∨ ripple = 1.0) →
      get_chebyshev_g_values n ripple = .error (.rippleNotSupported ripple) ∧
      explainsOddRequirement (.rippleNotSupported ripple) = false) := by
  have horder : ∀ hr : ripple = 0.1 ∨ ripple = 0.5 ∨ ripple = 1.0,
      n ∉ ([3, 5, 7, 9] : List ℕ) →
      get_chebyshev_g_values n ripple = .error (.chebyshevOrderNotTabulated n) := by
    intro hr hn
    unfold get_chebyshev_g_values
    rcases hr with h | h | h <;> subst h <;> unfold CHEBYSHEV_G_VALUES
    · rw [if_pos rfl]
      simp only [chebyshevTable01_none n hn]
    · rw [if_neg (by norm_num), if_pos rfl]
      simp only [chebyshevTable05_none n hn]
    · rw [if_neg (by norm_num), if_neg (by norm_num), if_pos rfl]
      simp only [chebyshevTable10_none n hn]
  have hripple : ¬(ripple = 0.1 ∨ ripple = 0.5 ∨ ripple = 1.0) →
      get_chebyshev_g_values n ripple = .error (.rippleNotSupported ripple) := by
    intro h
    unfold get_chebyshev_g_values
    rw [CHEBYSHEV_G_VALUES_none ripple h]
  refine ⟨?_, fun hr hn => ⟨horder hr hn, rfl⟩, fun h => ⟨hripple h, rfl⟩⟩
  intro heven
  by_cases hr : ripple = 0.1 ∨ ripple = 0.5 ∨ ripple = 1.0
  · exact ⟨_, horder hr (by simp; omega)⟩
  · exact ⟨_, hripple hr⟩

/-- Witness for C4 at order 2 (even), ripple 0.5 dB. -/
theorem C4_chebyshev_failures_witness :
    ∃ e, get_chebyshev_g_values 2 0.5 = .error e :=
  (C4_chebyshev_failures 2 0.5).1 rfl

/-! ## C1: coupling coefficients below 1 -/

lemma coupling_coefficients_mem (g : List ℝ) (fbw : ℝ) (k : ℝ)
    (hk : k ∈ calculate_coupling_coefficients g fbw) :
    ∃ i, i + 1 < g.length ∧ k = fbw / Real.sqrt (g.getD i 0 * g.getD (i + 1) 0) := by
  unfold calculate_coupling_coefficients at hk
  rw [List.mem_map] at hk
  obtain ⟨i, hi, rfl⟩ := hk
  rw [List.mem_range] at hi
  exact ⟨i, by omega, rfl⟩

lemma k_lt_one_of_prod (g : List ℝ) (fbw : ℝ) (h1 : 0 < fbw) (h2 : fbw ≤ 0.4)
    (hp : ∀ i, i + 1 < g.length → (0.16:ℝ) < g.getD i 0 * g.getD (i + 1) 0) :
    ∀ k ∈ calculate_coupling_coefficients g fbw, k < 1 := by
  intro k hk
  obtain ⟨i, hi, rfl⟩ := coupling_coefficients_mem g fbw k hk
  have hprod := hp i hi
  have hsq : fbw ^ 2 < g.getD i 0 * g.getD (i + 1) 0 := by nlinarith
  have hlt : fbw < Real.sqrt (g.getD i 0 * g.getD (i + 1) 0) :=
    Real.lt_sqrt_of_sq_lt hsq
  rw [div_lt_one (lt_trans h1 hlt)]
  exact hlt

/-- Boolean check that every adjacent product in a rational g-value table
exceeds a threshold. -/
def adjacent_products_exceed (c : ℚ) (l : List ℚ) : Bool :=
  (l.zip l.tail).all (fun p => decide (c < p.1 * p.2))

lemma adjacent_products_exceed_spec (c : ℚ) :
    ∀ l : List ℚ, adjacent_products_exceed c l = true →
    ∀ i, i + 1 < l.length →
      (c:ℝ) < (l.map (Rat.cast : ℚ → ℝ)).getD i 0 *
        (l.map (Rat.cast : ℚ → ℝ)).getD (i + 1) 0
  | [], _, i, hi => absurd hi (by simp)
  | [_], _, i, hi => absurd hi (by simp)
  | a :: b :: rest, h, i, hi => by
      rw [show adjacent_products_exceed c (a :: b :: rest) =
          ((decide (c < a * b)) && adjacent_products_exceed c (b :: rest)) from rfl,
        Bool.and_eq_true, decide_eq_true_eq] at h
      match i with
      | 0 =>
        show (c:ℝ) < (a:ℝ) * (b:ℝ)
        exact_mod_cast h.1
      | j + 1 =>
        show (c:ℝ) < ((b :: rest).map (Rat.cast : ℚ → ℝ)).getD j 0 *
          ((b :: rest).map (Rat.cast : ℚ → ℝ)).getD (j + 1) 0
        exact adjacent_products_exceed_spec c (b :: rest) h.2 j (by simpa using hi)

lemma chebyshevTable01_adjacent (n : ℕ) (gq : List ℚ) (h : chebyshevTable01 n = some gq) :
    adjacent_products_exceed 0.16 gq = true := by
  unfold chebyshevTable01 at h
  split_ifs at h <;> first
    | (injection h with h2; subst h2;
       simp only [adjacent_products_exceed, List.zip_cons_cons, List.tail_cons,
         List.zip_nil_right, List.all_cons, List.all_nil, Bool.and_eq_true, decide_eq_true_eq];
       norm_num)
    | injection h

lemma chebyshevTable05_adjacent (n : ℕ) (gq : List ℚ) (h : chebyshevTable05 n = some gq) :
    adjacent_products_exceed 0.16 gq = true := by
  unfold chebyshevTable05 at h
  split_ifs at h <;> first
    | (injection h with h2; subst h2;
       simp only [adjacent_products_exceed, List.zip_cons_cons, List.tail_cons,
         List.zip_nil_right, List.all_cons, List.all_nil, Bool.and_eq_true, decide_eq_true_eq];
       norm_num)
    | injection h

lemma chebyshevTable10_adjacent (n : ℕ) (gq : List ℚ) (h : chebyshevTable10 n = some gq) :
    adjacent_products_exceed 0.16 gq = true := by
  unfold chebyshevTable10 at h
  split_ifs at h <;> first
    | (injection h with h2; subst h2;
       simp only [adjacent_products_exceed, List.zip_cons_cons, List.tail_cons,
         List.zip_nil_right, List.all_cons, List.all_nil, Bool.and_eq_true, decide_eq_true_eq];
       norm_num)
    | injection h

lemma get_chebyshev_ok_adjacent (n : ℕ) (r : ℚ) (gq : List ℚ)
    (h : get_chebyshev_g_values n r = .ok gq) :
    adjacent_products_exceed 0.16 gq = true := by
  unfold get_chebyshev_g_values at h
  split at h
  · injection h
  · rename_i tbl hr
    split at h
    · injection h
    · rename_i l ht
      injection h with h2
      subst h2
      unfold CHEBYSHEV_G_VALUES at hr
      split_ifs at hr
      · injection hr with hr2
        subst hr2
        exact chebyshevTable01_adjacent n l ht
      · injection hr with hr2
        subst hr2
        exact chebyshevTable05_adjacent n l ht
      · injection hr with hr2
        subst hr2
        exact chebyshevTable10_adjacent n l ht

lemma get_bessel_small_adjacent (n : ℕ) (hn : n ≤ 3) (gq : List ℚ)
    (h : get_bessel_g_values n = .ok gq) :
    adjacent_products_exceed 0.16 gq = true := by
  unfold get_bessel_g_values BESSEL_G_VALUES at h
  split_ifs at h <;> first
    | omega
    | (injection h with h2; subst h2;
       simp only [adjacent_products_exceed, List.zip_cons_cons, List.tail_cons,
         List.zip_nil_right, List.all_cons, List.all_nil, Bool.and_eq_true, decide_eq_true_eq];
       norm_num)
    | injection h

lemma jordan_sin (a b : ℕ) (ha : 0 < a) (hab : a ≤ b) :
    (a:ℝ) / b ≤ Real.sin ((a:ℝ) * π / (2 * b)) := by
  have hb : 0 < b := lt_of_lt_of_le ha hab
  have hbR : (0:ℝ) < b := by exact_mod_cast hb
  have haR : (0:ℝ) < a := by exact_mod_cast ha
  have habR : (a:ℝ) ≤ b := by exact_mod_cast hab
  have hx0 : (0:ℝ) ≤ (a:ℝ) * π / (2 * b) := by positivity
  have hx2 : (a:ℝ) * π / (2 * b) ≤ π / 2 := by
    rw [div_le_div_iff (by positivity) (by norm_num)]
    nlinarith [Real.pi_pos]
  have hkey := Real.mul_le_sin hx0 hx2
  have heq : 2 / π * ((a:ℝ) * π / (2 * b)) = (a:ℝ) / b := by
    field_simp
    ring
  rw [heq] at hkey
  exact hkey

lemma sin_lower_bound (j b m : ℕ) (hm : 0 < m) (hmb : m ≤ b)
    (hj : j = m ∨ j + m = 2 * b) :
    (m:ℝ) / b ≤ Real.sin ((j:ℝ) * π / (2 * b)) := by
  rcases hj with rfl | hj
  · exact jordan_sin j b hm hmb
  · have hb : 0 < b := lt_of_lt_of_le hm hmb
    have hbR : (0:ℝ) < b := by exact_mod_cast hb
    have hjR : (j:ℝ) + m = 2 * b := by exact_mod_cast hj
    have hjR2 : (j:ℝ) = 2 * b - m := by linarith
    have harg : (j:ℝ) * π / (2 * b) = π - (m:ℝ) * π / (2 * b) := by
      rw [hjR2]
      field_simp
      ring
    rw [harg, Real.sin_pi_sub]
    exact jordan_sin m b hm hmb

lemma pair_prod_bound (j₁ j₂ b m₁ m₂ : ℕ)
    (hm₁ : 0 < m₁) (h₁b : m₁ ≤ b) (hj₁ : j₁ = m₁ ∨ j₁ + m₁ = 2 * b)
    (hm₂ : 0 < m₂) (h₂b : m₂ ≤ b) (hj₂ : j₂ = m₂ ∨ j₂ + m₂ = 2 * b)
    (hbig : b * b * 4 < m₁ * m₂ * 100) :
    (0.16:ℝ) < (2 * Real.sin ((j₁:ℝ) * π / (2 * b))) *
      (2 * Real.sin ((j₂:ℝ) * π / (2 * b))) := by
  have hb : 0 < b := lt_of_lt_of_le hm₁ h₁b
  have hbR : (0:ℝ) < b := by exact_mod_cast hb
  have h₁ := sin_lower_bound j₁ b m₁ hm₁ h₁b hj₁
  have h₂ := sin_lower_bound j₂ b m₂ hm₂ h₂b hj₂
  have hm₁R : (0:ℝ) < (m₁:ℝ) / b := by positivity
  have hm₂R : (0:ℝ) < (m₂:ℝ) / b := by positivity
  have hs₁ : (0:ℝ) < Real.sin ((j₁:ℝ) * π / (2 * b)) := lt_of_lt_of_le hm₁R h₁
  have hkey : (m₁:ℝ) / b * ((m₂:ℝ) / b) ≤
      Real.sin ((j₁:ℝ) * π / (2 * b)) * Real.sin ((j₂:ℝ) * π / (2 * b)) :=
    mul_le_mul h₁ h₂ (le_of_lt hm₂R) (le_of_lt hs₁)
  have hbigR : (0.04:ℝ) < (m₁:ℝ) / b * ((m₂:ℝ) / b) := by
    rw [div_mul_div_comm, lt_div_iff (by positivity)]
    have : ((b:ℝ) * b) * 4 < (m₁:ℝ) * m₂ * 100 := by exact_mod_cast hbig
    nlinarith
  nlinarith [hkey, hbigR]

lemma pair_prod_bound_corner (j₁ j₂ : ℕ)
    (hj : (j₁ = 1 ∧ j₂ = 3) ∨ (j₁ = 15 ∧ j₂ = 17)) :
    (0.16:ℝ) < (2 * Real.sin ((j₁:ℝ) * π / (2 * ((9:ℕ):ℝ)))) *
      (2 * Real.sin ((j₂:ℝ) * π / (2 * ((9:ℕ):ℝ)))) := by
  have hfrac : (0.08:ℝ) < ((1:ℕ):ℝ) / ((9:ℕ):ℝ) := by push_cast; norm_num
  rcases hj with ⟨h1, h2⟩ | ⟨h1, h2⟩
  · have hs₁ := sin_lower_bound j₁ 9 1 (by norm_num) (by norm_num) (Or.inl h1)
    have hs₂ : Real.sin ((j₂:ℝ) * π / (2 * ((9:ℕ):ℝ))) = 1 / 2 := by
      have e : (j₂:ℝ) * π / (2 * ((9:ℕ):ℝ)) = π / 6 := by
        subst h2
        push_cast
        ring
      rw [e, Real.sin_pi_div_six]
    rw [hs₂]
    nlinarith [hs₁, hfrac]
  · have hs₂ := sin_lower_bound j₂ 9 1 (by norm_num) (by norm_num) (Or.inr (by omega))
    have hs₁ : Real.sin ((j₁:ℝ) * π / (2 * ((9:ℕ):ℝ))) = 1 / 2 := by
      have e : (j₁:ℝ) * π / (2 * ((9:ℕ):ℝ)) = π - π / 6 := by
        subst h1
        push_cast
        ring
      rw [e, Real.sin_pi_sub, Real.sin_pi_div_six]
    rw [hs₁]
    nlinarith [hs₂, hfrac]

lemma butterworth_prod (n i : ℕ) (h2 : 2 ≤ n) (h9 : n ≤ 9) (hi : i + 1 < n) :
    (0.16:ℝ) < (calculate_butterworth_g_values n).getD i 0 *
      (calculate_butterworth_g_values n).getD (i + 1) 0 := by
  rw [butterworth_getD n i (by omega), butterworth_getD n (i + 1) (by omega)]
  have e1 : (2 * (i:ℝ) + 1) = ((2 * i + 1 : ℕ) : ℝ) := by push_cast; ring
  have e2 : (2 * ((i + 1 : ℕ) : ℝ) + 1) = ((2 * i + 3 : ℕ) : ℝ) := by push_cast; ring
  rw [e1, e2]
  set m₁ := min (2 * i + 1) (2 * n - (2 * i + 1)) with hm₁def
  set m₂ := min (2 * i + 3) (2 * n - (2 * i + 3)) with hm₂def
  by_cases hbig : n * n * 4 < m₁ * m₂ * 100
  · exact pair_prod_bound (2 * i + 1) (2 * i + 3) n m₁ m₂ (by omega) (by omega)
      (by omega) (by omega) (by omega) (by omega) hbig
  · have hle : m₁ * m₂ * 100 ≤ n * n * 4 := Nat.le_of_not_lt hbig
    have hm1lb : 1 ≤ m₁ := by omega
    have hm2lb : 1 ≤ m₂ := by omega
    have hcases : m₁ = 1 ∨ m₂ = 1 := by
      by_contra hc
      push_neg at hc
      have e1' : 2 ≤ m₁ := by omega
      have e2' : 2 ≤ m₂ := by omega
      have hmm : 4 ≤ m₁ * m₂ := by
        calc 4 = 2 * 2 := rfl
        _ ≤ m₁ * m₂ := Nat.mul_le_mul e1' e2'
      have hnn : n * n ≤ 81 := by
        calc n * n ≤ 9 * 9 := Nat.mul_le_mul h9 h9
        _ = 81 := rfl
      linarith [hle, hmm, hnn]
    rcases hcases with h1e | h2e
    · have hi0 : i = 0 := by omega
      subst hi0
      rw [h1e, one_mul] at hle
      have hn9 : n = 9 := by interval_cases n <;> omega
      subst hn9
      exact pair_prod_bound_corner _ _ (Or.inl ⟨by omega, by omega⟩)
    · have hi2 : i = n - 2 := by omega
      subst hi2
      rw [h2e, mul_one] at hle
      have hn9 : n = 9 := by interval_cases n <;> omega
      subst hn9
      exact pair_prod_bound_corner _ _ (Or.inr ⟨by omega, by omega⟩)

/-- C1 counterexample: the claim quantifies over every g-sequence the
Prototype Provider can return, including the Bessel tables.  With the
Bessel order-4 g-values and fbw = 0.4 (inside the claimed (0, 0.4] range)
the first coupling coefficient is 0.4/sqrt(0.2334*0.6725) ≈ 1.0096 ≥ 1. -/
theorem C1_counterexample :
    ∃ g, (∃ n gq, get_bessel_g_values n = .ok gq ∧ g = gq.map (Rat.cast : ℚ → ℝ)) ∧
      (0:ℝ) < 0.4 ∧ (0.4:ℝ) ≤ 0.4 ∧
      ∃ k ∈ calculate_coupling_coefficients g 0.4, ¬k < 1 := by
  refine ⟨([0.2334, 0.6725, 1.0815, 2.2404] : List ℚ).map (Rat.cast : ℚ → ℝ),
    ⟨4, [0.2334, 0.6725, 1.0815, 2.2404], rfl, rfl⟩, by norm_num, le_refl _, ?_⟩
  have hmem : (0.4:ℝ) / Real.sqrt (((0.2334:ℚ):ℝ) * ((0.6725:ℚ):ℝ)) ∈
      calculate_coupling_coefficients
        (([0.2334, 0.6725, 1.0815, 2.2404] : List ℚ).map (Rat.cast : ℚ → ℝ)) 0.4 := by
    unfold calculate_coupling_coefficients
    refine List.mem_map.2 ⟨0, by simp, ?_⟩
    norm_num [List.getD]
  refine ⟨_, hmem, ?_⟩
  rw [not_lt]
  have hprod : ((0.2334:ℚ):ℝ) * ((0.6725:ℚ):ℝ) = 0.15696150 := by
    push_cast
    norm_num
  rw [hprod]
  have hroot : Real.sqrt 0.15696150 ≤ 0.4 := by
    rw [show (0.4:ℝ) = Real.sqrt (0.4 ^ 2) from (Real.sqrt_sq (by norm_num)).symm]
    exact Real.sqrt_le_sqrt (by norm_num)
  have hpos : (0:ℝ) < Real.sqrt 0.15696150 := Real.sqrt_pos.2 (by norm_num)
  rw [le_div_iff hpos]
  linarith

/-- C1 (amended): for every fbw in (0, 0.4] and every g-value sequence the
Prototype Provider can return EXCEPT the Bessel tables of order ≥ 4 — i.e.
any Butterworth sequence of order 2-9, any tabulated Chebyshev sequence,
and the Bessel sequences of order ≤ 3 — every coupling coefficient
`fbw / sqrt(g_i * g_{i+1})` is strictly less than 1. -/
theorem C1_coupling_coefficients_lt_one (g : List ℝ) (fbw : ℝ)
    (h1 : 0 < fbw) (h2 : fbw ≤ 0.4)
    (hg : (∃ n, 2 ≤ n ∧ n ≤ 9 ∧ g = calculate_butterworth_g_values n) ∨
          (∃ n r gq, get_chebyshev_g_values n r = .ok gq ∧
            g = gq.map (Rat.cast : ℚ → ℝ)) ∨
          (∃ n, n ≤ 3 ∧ ∃ gq, get_bessel_g_values n = .ok gq ∧
            g = gq.map (Rat.cast : ℚ → ℝ))) :
    ∀ k ∈ calculate_coupling_coefficients g fbw, k < 1 := by
  apply k_lt_one_of_prod g fbw h1 h2
  rcases hg with ⟨n, hn2, hn9, rfl⟩ | ⟨n, r, gq, hok, rfl⟩ | ⟨n, hn3, gq, hok, rfl⟩
  · intro i hi
    rw [butterworth_length] at hi
    exact butterworth_prod n i hn2 hn9 hi
  · intro i hi
    rw [List.length_map] at hi
    exact adjacent_products_exceed_spec 0.16 gq (get_chebyshev_ok_adjacent n r gq hok) i hi
  · intro i hi
    rw [List.length_map] at hi
    exact adjacent_products_exceed_spec 0.16 gq (get_bessel_small_adjacent n hn3 gq hok) i hi

/-- Witness for C1 (amended): the first coupling coefficient of the
order-2 Butterworth prototype at fbw = 0.2 is below 1. -/
theorem C1_coupling_coefficients_lt_one_witness :
    (0:ℝ) < 0.2 ∧ (0.2:ℝ) ≤ 0.4 ∧
    0.2 / Real.sqrt ((calculate_butterworth_g_values 2).getD 0 0 *
      (calculate_butterworth_g_values 2).getD 1 0) < 1 :=
  ⟨by norm_num, by norm_num,
    C1_coupling_coefficients_lt_one _ 0.2 (by norm_num) (by norm_num)
      (Or.inl ⟨2, by norm_num, by norm_num, rfl⟩) _
      (by
        unfold calculate_coupling_coefficients
        exact List.mem_map.2 ⟨0, by norm_num [butterworth_length, List.mem_range], rfl⟩)⟩

/-! ## C3: single-value E-series search optimality -/

lemma bestStep_some (t : ℚ) (acc : ℚ × ℚ) (c : ℚ) :
    bestStep t (some acc) c =
      some (if error_pct c t < acc.2 then (c, error_pct c t) else acc) := by
  obtain ⟨bv, be⟩ := acc
  simp only [bestStep]
  split_ifs <;> rfl

lemma foldl_bestStep_mono (t : ℚ) (cs : List ℚ) :
    ∀ (acc p : ℚ × ℚ), cs.foldl (bestStep t) (some acc) = some p → p.2 ≤ acc.2 := by
  induction cs with
  | nil =>
    intro acc p h
    simp only [List.foldl_nil, Option.some.injEq] at h
    rw [← h]
  | cons c cs ih =>
    intro acc p h
    rw [List.foldl_cons, bestStep_some] at h
    have hrec := ih _ p h
    rw [apply_ite Prod.snd] at hrec
    split_ifs at hrec with hlt
    · exact le_trans hrec (le_of_lt hlt)
    · exact hrec

lemma foldl_bestStep_le (t : ℚ) (cs : List ℚ) :
    ∀ (acc : Option (ℚ × ℚ)) (p : ℚ × ℚ), cs.foldl (bestStep t) acc = some p →
      ∀ c ∈ cs, p.2 ≤ error_pct c t := by
  induction cs with
  | nil =>
    intro acc p _ c hc
    exact absurd hc (List.not_mem_nil c)
  | cons c0 cs ih =>
    intro acc p h c hc
    rw [List.foldl_cons] at h
    rcases List.mem_cons.1 hc with rfl | hc'
    · cases acc with
      | none =>
        have hstep : bestStep t none c = some (c, error_pct c t) := rfl
        rw [hstep] at h
        simpa using foldl_bestStep_mono t cs _ p h
      | some a =>
        rw [bestStep_some] at h
        have hrec := foldl_bestStep_mono t cs _ p h
        rw [apply_ite Prod.snd] at hrec
        split_ifs at hrec with hlt
        · simpa using hrec
        · push_neg at hlt
          exact le_trans hrec hlt
    · exact ih _ p h c hc'

lemma foldl_bestStep_inv (t : ℚ) (cs : List ℚ) :
    ∀ acc : Option (ℚ × ℚ), (∀ a : ℚ × ℚ, acc = some a → a.2 = error_pct a.1 t) →
      ∀ p : ℚ × ℚ, cs.foldl (bestStep t) acc = some p → p.2 = error_pct p.1 t := by
  induction cs with
  | nil =>
    intro acc hacc p h
    simp only [List.foldl_nil] at h
    exact hacc p h
  | cons c cs ih =>
    intro acc hacc p h
    rw [List.foldl_cons] at h
    refine ih _ ?_ p h
    intro a ha
    cases acc with
    | none =>
      have hstep : bestStep t none c = some (c, error_pct c t) := rfl
      rw [hstep, Option.some.injEq] at ha
      rw [← ha]
    | some b =>
      rw [bestStep_some, Option.some.injEq] at ha
      rw [← ha, apply_ite Prod.snd, apply_ite Prod.fst]
      split_ifs
      · rfl
      · exact hacc b rfl

lemma error_pct_mono_above (t c₁ c₂ : ℚ) (ht : 0 < t) (h1 : t ≤ c₁) (h2 : c₁ ≤ c₂) :
    error_pct c₁ t ≤ error_pct c₂ t := by
  unfold error_pct
  rw [abs_of_nonneg (by linarith), abs_of_nonneg (by linarith)]
  gcongr

lemma error_pct_mono_below (t c₁ c₂ : ℚ) (ht : 0 < t) (h1 : c₂ ≤ c₁) (h2 : c₁ ≤ t) :
    error_pct c₁ t ≤ error_pct c₂ t := by
  unfold error_pct
  rw [abs_of_nonpos (by linarith), abs_of_nonpos (by linarith)]
  gcongr
  try linarith

lemma series_headD (s : Series) : (E_SERIES s).headD 0 = 1 := by
  cases s <;> norm_num [E_SERIES, E12, E24, E96]

lemma series_last_lt_ten (s : Series) : (E_SERIES s).getLastD 0 < 10 := by
  cases s <;> norm_num [E_SERIES, E12, E24, E96]

lemma all_bounds_spec (lo hi : ℚ) :
    ∀ l : List ℚ, (l.all fun x => decide (lo ≤ x) && decide (x ≤ hi)) = true →
      ∀ m ∈ l, lo ≤ m ∧ m ≤ hi := by
  intro l hl m hm
  rw [List.all_eq_true] at hl
  have hx := hl m hm
  rw [Bool.and_eq_true, decide_eq_true_eq, decide_eq_true_eq] at hx
  exact hx

lemma series_mem_bounds (s : Series) (m : ℚ) (hm : m ∈ E_SERIES s) :
    1 ≤ m ∧ m ≤ (E_SERIES s).getLastD 0 := by
  cases s
  · have h := all_bounds_spec 1 8.2 E12
      (by norm_num [E12, List.all_cons, Bool.and_eq_true, decide_eq_true_eq])
      m (by simpa [E_SERIES] using hm)
    have hlast : (E_SERIES Series.e12).getLastD 0 = 8.2 := by norm_num [E_SERIES, E12]
    rw [hlast]
    exact h
  · have h := all_bounds_spec 1 9.1 E24
      (by norm_num [E24, List.all_cons, Bool.and_eq_true, decide_eq_true_eq])
      m (by simpa [E_SERIES] using hm)
    have hlast : (E_SERIES Series.e24).getLastD 0 = 9.1 := by norm_num [E_SERIES, E24]
    rw [hlast]
    exact h
  · have h := all_bounds_spec 1 9.76 E96
      (by norm_num [E96, List.all_cons, Bool.and_eq_true, decide_eq_true_eq])
      m (by simpa [E_SERIES] using hm)
    have hlast : (E_SERIES Series.e96).getLastD 0 = 9.76 := by norm_num [E_SERIES, E96]
    rw [hlast]
    exact h

/-- C3: for every positive target and known series, the single value
returned by `find_closest_single` carries its own percent error and that
error is ≤ the percent error of every standard value of the series in the
target's decade and in both adjacent decades: the restricted scan (home
decade plus one boundary value from each neighbour decade) is equivalent
to the full three-decade scan. -/
theorem C3_find_closest_single_optimal (target : ℚ) (ht : 0 < target) (series : Series)
    (v e : ℚ) (h : find_closest_single target series = some (v, e)) :
    e = error_pct v target ∧
    ∀ m ∈ E_SERIES series, ∀ off ∈ ([-1, 0, 1] : List ℤ),
      e ≤ error_pct (denormalize m (Int.log 10 target + off)) target := by
  unfold find_closest_single at h
  rw [if_neg (not_le.2 ht)] at h
  simp only [] at h
  constructor
  · have hinv := foldl_bestStep_inv target _ none
      (fun a ha => Option.noConfusion ha) (v, e) h
    simpa using hinv
  · have hle := foldl_bestStep_le target _ none (v, e) h
    intro m hm off hoff
    have hten : ((10:ℕ):ℚ) = (10:ℚ) := by norm_num
    have h10d : (10:ℚ) ^ (Int.log 10 target) ≤ target := by
      have hz := Int.zpow_log_le_self (b := 10) (r := target) (by norm_num) ht
      rwa [hten] at hz
    have h10d1 : target < (10:ℚ) ^ (Int.log 10 target + 1) := by
      have hz := Int.lt_zpow_succ_log_self (b := 10) (by norm_num) target
      rwa [hten] at hz
    have hmb := series_mem_bounds series m hm
    simp only [List.mem_cons, List.not_mem_nil, or_false] at hoff
    rcases hoff with rfl | rfl | rfl
    · -- adjacent decade below
      have eoff : Int.log 10 target + (-1) = Int.log 10 target - 1 := by ring
      rw [eoff]
      have hcand : denormalize ((E_SERIES series).getLastD 0) (Int.log 10 target - 1) ∈
          (E_SERIES series).map (fun sv => denormalize sv (Int.log 10 target)) ++
          [denormalize ((E_SERIES series).headD 0) (Int.log 10 target + 1),
           denormalize ((E_SERIES series).getLastD 0) (Int.log 10 target - 1)] := by
        apply List.mem_append_right
        simp
      have h1 := hle _ hcand
      have hp : (0:ℚ) < (10:ℚ) ^ (Int.log 10 target - 1) := by positivity
      have hc1le : denormalize ((E_SERIES series).getLastD 0) (Int.log 10 target - 1) ≤
          target := by
        unfold denormalize
        have hlast10 := series_last_lt_ten series
        calc (E_SERIES series).getLastD 0 * 10 ^ (Int.log 10 target - 1)
            ≤ 10 * 10 ^ (Int.log 10 target - 1) :=
              mul_le_mul_of_nonneg_right (le_of_lt hlast10) (le_of_lt hp)
          _ = 10 ^ (Int.log 10 target) := by
              rw [mul_comm, ← zpow_add_one₀ (by norm_num : (10:ℚ) ≠ 0)]
              congr 1
              ring
          _ ≤ target := h10d
      have hmle : denormalize m (Int.log 10 target - 1) ≤
          denormalize ((E_SERIES series).getLastD 0) (Int.log 10 target - 1) :=
        mul_le_mul_of_nonneg_right hmb.2 (le_of_lt hp)
      exact le_trans h1 (error_pct_mono_below target _ _ ht hmle hc1le)
    · -- home decade
      rw [add_zero]
      refine hle _ ?_
      exact List.mem_append_left _ (List.mem_map.2 ⟨m, hm, rfl⟩)
    · -- adjacent decade above
      have hcand : denormalize ((E_SERIES series).headD 0) (Int.log 10 target + 1) ∈
          (E_SERIES series).map (fun sv => denormalize sv (Int.log 10 target)) ++
          [denormalize ((E_SERIES series).headD 0) (Int.log 10 target + 1),
           denormalize ((E_SERIES series).getLastD 0) (Int.log 10 target - 1)] := by
        apply List.mem_append_right
        simp
      have h1 := hle _ hcand
      have hp : (0:ℚ) ≤ (10:ℚ) ^ (Int.log 10 target + 1) := by positivity
      have hc1ge : target ≤ denormalize ((E_SERIES series).headD 0)
          (Int.log 10 target + 1) := by
        unfold denormalize
        rw [series_headD, one_mul]
        exact le_of_lt h10d1
      have hmge : denormalize ((E_SERIES series).headD 0) (Int.log 10 target + 1) ≤
          denormalize m (Int.log 10 target + 1) := by
        unfold denormalize
        rw [series_headD]
        exact mul_le_mul_of_nonneg_right hmb.1 hp
      exact le_trans h1 (error_pct_mono_above target _ _ ht hc1ge hmge)

/-- Witness for C3 at target 1, series E12 (the match is exact: value 1,
error 0). -/
theorem C3_find_closest_single_optimal_witness :
    (0:ℚ) = error_pct 1 1 ∧
    ∀ m ∈ E_SERIES Series.e12, ∀ off ∈ ([-1, 0, 1] : List ℤ),
      (0:ℚ) ≤ error_pct (denormalize m (Int.log 10 (1:ℚ) + off)) 1 :=
  C3_find_closest_single_optimal 1 (by norm_num) Series.e12 1 0
    (by norm_num [find_closest_single, E_SERIES, E12, bestStep, denormalize, error_pct,
      Int.log_one_right, List.foldl_cons, List.foldl_nil, abs_of_nonneg])

/-! ## C2: unrealizable designs fail naming every offending resonator -/

/-- The compensated tank-capacitance sequence computed inside
`bandpass_core` for given inputs and g-values (the composition of the
Resonator Synthesizer, the Coupling/Q Calculator and the Coupling Network
Builder). -/
noncomputable def pipeline_c_tank (f0 z0 fbw : ℝ) (n : ℕ) (coupling : Coupling)
    (g : List ℝ) : List ℝ :=
  calculate_tank_capacitors n (calculate_resonator_components f0 z0).2
    (match coupling with
     | .top => calculate_coupling_capacitors_top_c
         (calculate_coupling_coefficients g fbw) (calculate_resonator_components f0 z0).2
     | .shunt => calculate_coupling_capacitors_shunt_c
         (calculate_coupling_coefficients g fbw) (calculate_resonator_components f0 z0).2)
    coupling

lemma calculate_bandpass_filter_eq_core (f0 bw z0 : ℝ) (n : ℕ) (ft : FilterType)
    (coupling : Coupling) (r : ℚ) (qs : ℝ) (g : List ℝ)
    (hf : 0 < f0) (hb : 0 < bw) (hlt : bw < f0) (hz : 0 < z0)
    (hn2 : 2 ≤ n) (hn9 : n ≤ 9) (hg : prototype_g_values ft n r = .ok g) :
    calculate_bandpass_filter f0 bw z0 n ft coupling r qs =
      bandpass_core f0 bw z0 n ft coupling r qs g := by
  unfold calculate_bandpass_filter
  rw [if_neg (not_le.2 hf), if_neg (not_le.2 hb), if_neg (not_le.2 hlt),
    if_neg (not_le.2 hz), if_neg (not_not_intro ⟨hn2, hn9⟩), hg]

lemma getD_mem_of_lt (l : List ℝ) (i : ℕ) (h : i < l.length) : l.getD i 0 ∈ l := by
  rw [List.getD_eq_getElem?_getD, List.getElem?_eq_getElem h]
  exact List.getElem_mem h

lemma core_tank_eq (f0 z0 fbw : ℝ) (n : ℕ) (coupling : Coupling) (g : List ℝ) :
    calculate_tank_capacitors n (calculate_resonator_components f0 z0).2
      (match coupling with
       | .top => calculate_coupling_capacitors_top_c
           (calculate_coupling_coefficients g fbw) (calculate_resonator_components f0 z0).2
       | .shunt => calculate_coupling_capacitors_shunt_c
           (calculate_coupling_coefficients g fbw) (calculate_resonator_components f0 z0).2)
      coupling = pipeline_c_tank f0 z0 fbw n coupling g := rfl

/-- C2: for inputs passing pre-validation (with a successful g-value
lookup), the synthesis raises the PhysicallyUnrealizable error exactly when
some compensated tank capacitance is ≤ 0, and the error names exactly the
1-based indices of the offending resonators (all of them, not just the
first); when all tank capacitances are positive the call succeeds. -/
theorem C2_unrealizable_iff (f0 bw z0 : ℝ) (n : ℕ) (ft : FilterType)
    (coupling : Coupling) (r : ℚ) (qs : ℝ) (g : List ℝ)
    (hf : 0 < f0) (hb : 0 < bw) (hlt : bw < f0) (hz : 0 < z0)
    (hn2 : 2 ≤ n) (hn9 : n ≤ 9) (hg : prototype_g_values ft n r = .ok g) :
    ((∃ c ∈ pipeline_c_tank f0 z0 (bw / f0) n coupling g, c ≤ 0) →
      ∃ idxs, calculate_bandpass_filter f0 bw z0 n ft coupling r qs =
          .error (.bandwidthTooWide idxs) ∧
        ∀ i < (pipeline_c_tank f0 z0 (bw / f0) n coupling g).length,
          ((i + 1) ∈ idxs ↔ (pipeline_c_tank f0 z0 (bw / f0) n coupling g).getD i 0 ≤ 0)) ∧
    ((∀ c ∈ pipeline_c_tank f0 z0 (bw / f0) n coupling g, 0 < c) →
      ∃ res, calculate_bandpass_filter f0 bw z0 n ft coupling r qs = .ok res) := by
  rw [calculate_bandpass_filter_eq_core f0 bw z0 n ft coupling r qs g hf hb hlt hz hn2 hn9 hg]
  unfold bandpass_core
  simp only []
  rw [core_tank_eq f0 z0 (bw / f0) n coupling g]
  set T := pipeline_c_tank f0 z0 (bw / f0) n coupling g with hT
  constructor
  · rintro ⟨c, hc, hcle⟩
    obtain ⟨i, hi, hieq⟩ := List.getElem_of_mem hc
    have hmem : i ∈ (List.range T.length).filter (fun j => T.getD j 0 ≤ 0) := by
      rw [List.mem_filter, List.mem_range]
      refine ⟨hi, ?_⟩
      rw [List.getD_eq_getElem?_getD, List.getElem?_eq_getElem hi, hieq]
      exact decide_eq_true hcle
    have hne : (List.range T.length).filter (fun j => T.getD j 0 ≤ 0) ≠ [] :=
      List.ne_nil_of_mem hmem
    rw [if_pos hne]
    refine ⟨_, rfl, ?_⟩
    intro j hj
    constructor
    · intro hjin
      rw [List.mem_map] at hjin
      obtain ⟨j', hj', hj'eq⟩ := hjin
      have : j' = j := by omega
      subst this
      rw [List.mem_filter, List.mem_range] at hj'
      exact of_decide_eq_true hj'.2
    · intro hle
      rw [List.mem_map]
      refine ⟨j, ?_, rfl⟩
      rw [List.mem_filter, List.mem_range]
      exact ⟨hj, decide_eq_true hle⟩
  · intro hpos
    have hnil : (List.range T.length).filter (fun j => T.getD j 0 ≤ 0) = [] := by
      rw [List.filter_eq_nil]
      intro j hj
      rw [List.mem_range] at hj
      have := hpos (T.getD j 0) (getD_mem_of_lt T j hj)
      simpa using not_le.2 this
    rw [if_neg (not_not_intro hnil)]
    exact ⟨_, rfl⟩

lemma coeffs_two (g0 g1 fbw : ℝ) :
    calculate_coupling_coefficients [g0, g1] fbw = [fbw / Real.sqrt (g0 * g1)] := by
  norm_num [calculate_coupling_coefficients, List.getD, List.range_succ]

lemma tank2_eq (C k : ℝ) (topo : Coupling) :
    calculate_tank_capacitors 2 C [k] topo = [C - k, C - k] := by
  norm_num [calculate_tank_capacitors, List.range_succ, List.getD]

lemma bessel2_g : prototype_g_values .bessel 2 (1/2) =
    .ok [((0.5755:ℚ):ℝ), ((2.1478:ℚ):ℝ)] := rfl

lemma bessel2_tank_eq :
    pipeline_c_tank 100 1 ((1:ℝ) / 100) 2 Coupling.top
      [((0.5755:ℚ):ℝ), ((2.1478:ℚ):ℝ)] =
    [(calculate_resonator_components 100 1).2 -
       ((1:ℝ) / 100 / Real.sqrt (((0.5755:ℚ):ℝ) * ((2.1478:ℚ):ℝ))) *
         (calculate_resonator_components 100 1).2,
     (calculate_resonator_components 100 1).2 -
       ((1:ℝ) / 100 / Real.sqrt (((0.5755:ℚ):ℝ) * ((2.1478:ℚ):ℝ))) *
         (calculate_resonator_components 100 1).2] := by
  unfold pipeline_c_tank
  rw [coeffs_two]
  rw [show (match Coupling.top with
      | Coupling.top => calculate_coupling_capacitors_top_c
          [(1:ℝ) / 100 / Real.sqrt (((0.5755:ℚ):ℝ) * ((2.1478:ℚ):ℝ))]
          (calculate_resonator_components 100 1).2
      | Coupling.shunt => calculate_coupling_capacitors_shunt_c
          [(1:ℝ) / 100 / Real.sqrt (((0.5755:ℚ):ℝ) * ((2.1478:ℚ):ℝ))]
          (calculate_resonator_components 100 1).2) =
    [((1:ℝ) / 100 / Real.sqrt (((0.5755:ℚ):ℝ) * ((2.1478:ℚ):ℝ))) *
      (calculate_resonator_components 100 1).2] from rfl]
  exact tank2_eq _ _ _

lemma bessel2_C_pos : (0:ℝ) < (calculate_resonator_components 100 1).2 := by
  unfold calculate_resonator_components
  simp only []
  positivity

lemma bessel2_k_lt_one :
    (1:ℝ) / 100 / Real.sqrt (((0.5755:ℚ):ℝ) * ((2.1478:ℚ):ℝ)) < 1 := by
  have hprod : ((0.5755:ℚ):ℝ) * ((2.1478:ℚ):ℝ) = 1.23605890 := by
    push_cast
    norm_num
  rw [hprod]
  have h1 : (1:ℝ) ≤ Real.sqrt 1.23605890 := by
    rw [show (1:ℝ) = Real.sqrt 1 from Real.sqrt_one.symm]
    exact Real.sqrt_le_sqrt (by norm_num)
  have h2 : (1:ℝ) / 100 / Real.sqrt 1.23605890 ≤ (1:ℝ) / 100 / 1 := by
    apply div_le_div_of_nonneg_left (by norm_num) (by norm_num) h1
  rw [div_one] at h2
  linarith

lemma bessel2_tank_pos :
    ∀ c ∈ pipeline_c_tank 100 1 ((1:ℝ) / 100) 2 Coupling.top
      [((0.5755:ℚ):ℝ), ((2.1478:ℚ):ℝ)], 0 < c := by
  rw [bessel2_tank_eq]
  intro c hc
  simp only [List.mem_cons, List.not_mem_nil, or_false] at hc
  have hC := bessel2_C_pos
  have hk := bessel2_k_lt_one
  rcases hc with rfl | rfl <;> nlinarith

/-- Witness for C2: a valid Bessel order-2 synthesis whose tank
capacitances are all positive succeeds. -/
theorem C2_unrealizable_iff_witness :
    ∃ res, calculate_bandpass_filter 100 1 1 2 .bessel .top (1/2) 2 = .ok res :=
  (C2_unrealizable_iff 100 1 1 2 .bessel .top (1/2) 2
    [((0.5755:ℚ):ℝ), ((2.1478:ℚ):ℝ)] (by norm_num) (by norm_num) (by norm_num)
    (by norm_num) (by norm_num) (by norm_num) bessel2_g).2 bessel2_tank_pos

/-! ## C5: advisory warnings never abort synthesis -/

/-- C5: for every valid synthesis input whose tank capacitances are all
positive, the call succeeds, and the returned warnings list carries the
Shunt-C advisory exactly when the topology is shunt and fbw > 0.10, and
the wide-band advisory exactly when fbw > 0.40 (with either topology). -/
theorem C5_warnings_advisory (f0 bw z0 : ℝ) (n : ℕ) (ft : FilterType)
    (coupling : Coupling) (r : ℚ) (qs : ℝ) (g : List ℝ)
    (hf : 0 < f0) (hb : 0 < bw) (hlt : bw < f0) (hz : 0 < z0)
    (hn2 : 2 ≤ n) (hn9 : n ≤ 9) (hg : prototype_g_values ft n r = .ok g)
    (htank : ∀ c ∈ pipeline_c_tank f0 z0 (bw / f0) n coupling g, 0 < c) :
    ∃ res, calculate_bandpass_filter f0 bw z0 n ft coupling r qs = .ok res ∧
      (Warning.shuntFbwExceeds10 ∈ res.warnings ↔
        (coupling = .shunt ∧ 0.10 < bw / f0)) ∧
      (Warning.fbwExceeds40 ∈ res.warnings ↔ 0.40 < bw / f0) := by
  rw [calculate_bandpass_filter_eq_core f0 bw z0 n ft coupling r qs g hf hb hlt hz hn2 hn9 hg]
  unfold bandpass_core
  simp only []
  rw [core_tank_eq f0 z0 (bw / f0) n coupling g]
  set T := pipeline_c_tank f0 z0 (bw / f0) n coupling g with hT
  have hnil : (List.range T.length).filter (fun j => T.getD j 0 ≤ 0) = [] := by
    rw [List.filter_eq_nil]
    intro j hj
    rw [List.mem_range] at hj
    have := htank (T.getD j 0) (getD_mem_of_lt T j hj)
    simpa using not_le.2 this
  rw [if_neg (not_not_intro hnil)]
  refine ⟨_, rfl, ?_, ?_⟩
  · by_cases h1 : coupling = .shunt ∧ 0.10 < bw / f0 <;>
      by_cases h2 : 0.40 < bw / f0 <;>
      simp [h1, h2]
  · by_cases h1 : coupling = .shunt ∧ 0.10 < bw / f0 <;>
      by_cases h2 : 0.40 < bw / f0 <;>
      simp [h1, h2]

/-- Witness for C5: the Bessel order-2 design with fbw = 1% succeeds and
carries neither advisory (1% is below both thresholds). -/
theorem C5_warnings_advisory_witness :
    ∃ res, calculate_bandpass_filter 100 1 1 2 .bessel .top (1/2) 2 = .ok res ∧
      (Warning.shuntFbwExceeds10 ∈ res.warnings ↔
        (Coupling.top = .shunt ∧ (0.10:ℝ) < 1 / 100)) ∧
      (Warning.fbwExceeds40 ∈ res.warnings ↔ (0.40:ℝ) < 1 / 100) :=
  C5_warnings_advisory 100 1 1 2 .bessel .top (1/2) 2
    [((0.5755:ℚ):ℝ), ((2.1478:ℚ):ℝ)] (by norm_num) (by norm_num) (by norm_num)
    (by norm_num) (by norm_num) (by norm_num) bessel2_g bessel2_tank_pos

/-! ## C10: cutoff frequencies use the arithmetic convention -/

/-- C10: every successful synthesis result has f_low = f0 - bw/2 and
f_high = f0 + bw/2, hence f_high - f_low equals the requested bandwidth
and the arithmetic midpoint of the two cutoffs equals the requested
center frequency. -/
theorem C10_cutoff_arithmetic (f0 bw z0 : ℝ) (n : ℕ) (ft : FilterType)
    (coupling : Coupling) (r : ℚ) (qs : ℝ) (res : FilterResult)
    (h : calculate_bandpass_filter f0 bw z0 n ft coupling r qs = .ok res) :
    res.f_low = f0 - bw / 2 ∧ res.f_high = f0 + bw / 2 ∧
      res.f_high - res.f_low = res.bw ∧ (res.f_low + res.f_high) / 2 = res.f0 := by
  unfold calculate_bandpass_filter at h
  split_ifs at h <;> try injection h
  split at h
  · injection h
  · rename_i g hg
    unfold bandpass_core at h
    simp only [] at h
    split at h
    · injection h
    · injection h with h2
      rw [← h2]
      refine ⟨rfl, rfl, ?_, ?_⟩
      · show (f0 + bw / 2) - (f0 - bw / 2) = bw
        ring
      · show ((f0 - bw / 2) + (f0 + bw / 2)) / 2 = f0
        ring

/-- Witness for C10: the Bessel order-2 success instance. -/
theorem C10_cutoff_arithmetic_witness :
    ∃ res, calculate_bandpass_filter 100 1 1 2 .bessel .top (1/2) 2 = .ok res ∧
      res.f_low = 100 - 1 / 2 ∧ res.f_high = 100 + 1 / 2 := by
  obtain ⟨res, hres⟩ := C2_unrealizable_iff_witness
  have h := C10_cutoff_arithmetic 100 1 1 2 .bessel .top (1/2) 2 res hres
  exact ⟨res, hres, h.1, h.2.1⟩

/-! ## C9: the two topologies compute identical numeric values -/

/-- Erases the only fields allowed to differ between the two topologies:
the recorded coupling topology and the advisory warnings list. -/
def stripTopology (res : FilterResult) : FilterResult :=
  { res with coupling := .top, warnings := [] }

/-- C9: the Top-C and Shunt-C coupling-capacitor builders return equal
lists for every input, and two synthesis calls differing only in the
topology argument produce the same outcome up to the recorded topology
and the warnings list (all numeric component values identical, and the
same error on failure). -/
theorem C9_topology_equivalence (k_values : List ℝ) (c_resonant : ℝ)
    (f0 bw z0 : ℝ) (n : ℕ) (ft : FilterType) (r : ℚ) (qs : ℝ) :
    calculate_coupling_capacitors_top_c k_values c_resonant =
      calculate_coupling_capacitors_shunt_c k_values c_resonant ∧
    (calculate_bandpass_filter f0 bw z0 n ft .top r qs).map stripTopology =
      (calculate_bandpass_filter f0 bw z0 n ft .shunt r qs).map stripTopology := by
  refine ⟨rfl, ?_⟩
  unfold calculate_bandpass_filter
  split_ifs <;> try rfl
  cases hg : prototype_g_values ft n r with
  | error e => rfl
  | ok g =>
    unfold bandpass_core
    simp only []
    simp only [show (match Coupling.shunt with
        | Coupling.top => calculate_coupling_capacitors_top_c
            (calculate_coupling_coefficients g (bw / f0))
            (calculate_resonator_components f0 z0).2
        | Coupling.shunt => calculate_coupling_capacitors_shunt_c
            (calculate_coupling_coefficients g (bw / f0))
            (calculate_resonator_components f0 z0).2) =
      calculate_coupling_capacitors_shunt_c
        (calculate_coupling_coefficients g (bw / f0))
        (calculate_resonator_components f0 z0).2 from rfl,
      show (match Coupling.top with
        | Coupling.top => calculate_coupling_capacitors_top_c
            (calculate_coupling_coefficients g (bw / f0))
            (calculate_resonator_components f0 z0).2
        | Coupling.shunt => calculate_coupling_capacitors_shunt_c
            (calculate_coupling_coefficients g (bw / f0))
            (calculate_resonator_components f0 z0).2) =
      calculate_coupling_capacitors_top_c
        (calculate_coupling_coefficients g (bw / f0))
        (calculate_resonator_components f0 z0).2 from rfl,
      show calculate_coupling_capacitors_shunt_c
          (calculate_coupling_coefficients g (bw / f0))
          (calculate_resonator_components f0 z0).2 =
        calculate_coupling_capacitors_top_c
          (calculate_coupling_coefficients g (bw / f0))
          (calculate_resonator_components f0 z0).2 from rfl,
      show calculate_tank_capacitors n (calculate_resonator_components f0 z0).2
          (calculate_coupling_capacitors_top_c
            (calculate_coupling_coefficients g (bw / f0))
            (calculate_resonator_components f0 z0).2) Coupling.shunt =
        calculate_tank_capacitors n (calculate_resonator_components f0 z0).2
          (calculate_coupling_capacitors_top_c
            (calculate_coupling_coefficients g (bw / f0))
            (calculate_resonator_components f0 z0).2) Coupling.top from rfl]
    split_ifs <;> rfl
